import Mathlib

/-!
Shallow embedding of the client-side data/view synchronization logic of
`src/script.js` (Stellar-Scout): the Dataset Store (`allExoplanets`,
`filteredExoplanets`, `currentPage`), pagination (`loadExoplanets`,
`loadMoreExoplanets`), the filter/search engine (`searchExoplanets`,
`applyFilters`, `resetFilters`), the planet-type classifier
(`getPlanetType`) and the prediction renderer (`displayPredictionResult`).

JavaScript numbers carrying radii, distances and probabilities are
modelled as rationals; every numeric literal appearing in the source is
exactly representable and every numeric operation performed on these
fields is a comparison or exact arithmetic, so the rational model
reproduces each branch decision of the source.  JavaScript truthiness on
optional fields (`!planet.pl_rade`, `planet.hostname && ...`) is modelled
explicitly: a missing field is `none`, a present field is `some v`, and
the truthiness tests treat `some 0` / `some ""` as falsy exactly as the
source does.  A fetch-and-decode that fails (network error or a
`response.json()` rejection) is modelled as the response value `none`.
-/

namespace StellarScout

/-- One exoplanet record as returned by the backend.  `name` is required
by the rendering code; all other fields are optional. -/
structure Exoplanet where
  name : String
  hostname : Option String := none
  discoverymethod : Option String := none
  disc_year : Option Int := none
  sy_dist : Option ℚ := none
  pl_rade : Option ℚ := none
  pl_bmasse : Option ℚ := none
  pl_orbper : Option ℚ := none
  st_teff : Option ℚ := none
  st_rad : Option ℚ := none
  deriving DecidableEq

/-- JavaScript truthiness of an optional number: missing (`undefined`)
and `0` are falsy, every other value is truthy. -/
def numTruthy : Option ℚ → Bool
  | none => false
  | some q => q != 0

/-- JavaScript truthiness of an optional string: missing (`undefined`)
and the empty string are falsy. -/
def strTruthy : Option String → Bool
  | none => false
  | some s => s != ""

/-- `isPrefixL cand l`: the character list `cand` is an initial run
of `l`. -/
def isPrefixL : List Char → List Char → Bool
  | [], _ => true
  | _ :: _, [] => false
  | a :: as, b :: bs => a == b && isPrefixL as bs

/-- `hasSubL l cand`: `cand` occurs as a contiguous run inside `l`. -/
def hasSubL : List Char → List Char → Bool
  | [], cand => isPrefixL cand []
  | c :: t, cand => isPrefixL cand (c :: t) || hasSubL t cand

/-- JavaScript `s.includes(cand)`: substring containment. -/
def strIncludes (s cand : String) : Bool :=
  hasSubL s.data cand.data

/-- JavaScript `s.toLowerCase()` restricted to the ASCII mapping. -/
def lowerStr (s : String) : String :=
  ⟨s.data.map Char.toLower⟩

/-- `getPlanetType` of `src/script.js:215`:
`if (!planet.pl_rade) return 'Unknown Type';` then half-open,
lower-inclusive radius bands.  The truthiness guard makes a present
radius of exactly `0` fall into the "Unknown Type" branch. -/
def getPlanetType (planet : Exoplanet) : String :=
  if !numTruthy planet.pl_rade then "Unknown Type"
  else
    let radius := planet.pl_rade.getD 0
    if radius < 1.25 then "Earth-like"
    else if radius < 2.0 then "Super-Earth"
    else if radius < 6.0 then "Neptune-like"
    else "Jupiter-like"

/-- `searchExoplanets` of `src/script.js:226`, as a function of the full
dataset and the raw text of the search input.  The source lowercases the
input, returns `allExoplanets` on the empty term, and otherwise filters
by lowercased-substring match on `name`, or on `hostname` when that
field is truthy. -/
def searchExoplanets (allExoplanets : List Exoplanet) (inputValue : String) :
    List Exoplanet :=
  let searchTerm := lowerStr inputValue
  if searchTerm = "" then allExoplanets
  else
    allExoplanets.filter fun planet =>
      strIncludes (lowerStr planet.name) searchTerm ||
        (strTruthy planet.hostname &&
          strIncludes (lowerStr (planet.hostname.getD "")) searchTerm)

/-- `applyFilters` of `src/script.js:242`, as a function of the full
dataset and the two select values.  Each `matches*` flag starts `true`
and is reassigned only when both the filter value and the corresponding
entity field are truthy. -/
def applyFilters (allExoplanets : List Exoplanet)
    (methodFilter habitableFilter : String) : List Exoplanet :=
  allExoplanets.filter fun planet =>
    let matchesMethod :=
      if methodFilter != "" && strTruthy planet.discoverymethod then
        strIncludes (planet.discoverymethod.getD "") methodFilter
      else true
    let matchesHabitable :=
      if habitableFilter != "" && numTruthy planet.pl_rade then
        let radius := planet.pl_rade.getD 0
        if habitableFilter = "habitable" then
          decide (0.5 ≤ radius) && decide (radius ≤ 1.5)
        else if habitableFilter = "hot" then decide (radius < 0.5)
        else if habitableFilter = "cold" then decide (radius > 1.5)
        else true
      else true
    matchesMethod && matchesHabitable

/-- One page of the `/exoplanets` response: the decoded list plus the
server continuation flag. -/
structure Page where
  exoplanets : List Exoplanet
  has_more : Bool
  deriving DecidableEq

/-- The Dataset Store: the three globals of `src/script.js:5`. -/
structure StoreState where
  currentPage : Nat
  allExoplanets : List Exoplanet
  filteredExoplanets : List Exoplanet
  deriving DecidableEq

/-- Initial global state: `currentPage = 1`, both lists empty. -/
def initialState : StoreState :=
  { currentPage := 1, allExoplanets := [], filteredExoplanets := [] }

/-- The store effect of `loadExoplanets(page)` (`src/script.js:123`).
`response = none` models a failed fetch or decode: the `catch` branch
only rewrites the grid and touches none of the globals.  On success,
page 1 replaces both lists, any other page appends the fetched
exoplanets to both, and `currentPage` is set to the requested page. -/
def loadExoplanets (st : StoreState) (page : Nat) (response : Option Page) :
    StoreState :=
  match response with
  | none => st
  | some data =>
    if page = 1 then
      { currentPage := page
        allExoplanets := data.exoplanets
        filteredExoplanets := data.exoplanets }
    else
      { currentPage := page
        allExoplanets := st.allExoplanets ++ data.exoplanets
        filteredExoplanets := st.filteredExoplanets ++ data.exoplanets }

/-- `loadMoreExoplanets` (`src/script.js:282`): load page
`currentPage + 1`. -/
def loadMoreExoplanets (st : StoreState) (response : Option Page) : StoreState :=
  loadExoplanets st (st.currentPage + 1) response

/-- The three input controls read and cleared by the filter code. -/
structure Controls where
  searchInput : String
  discoveryMethodFilter : String
  habitableFilter : String
  deriving DecidableEq

/-- `resetFilters` (`src/script.js:272`): blank all three controls and
set `filteredExoplanets = allExoplanets`. -/
def resetFilters (st : StoreState) (_c : Controls) : StoreState × Controls :=
  ({ st with filteredExoplanets := st.allExoplanets },
   { searchInput := "", discoveryMethodFilter := "", habitableFilter := "" })

/-- The store operations a user action can trigger. -/
inductive Op where
  | loadPage (page : Nat) (response : Option Page)
  | loadMore (response : Option Page)
  | search (inputValue : String)
  | filters (methodFilter habitableFilter : String)
  | reset

/-- The effect of each operation on the Dataset Store: search and the
category filters recompute `filteredExoplanets` from `allExoplanets`,
reset copies `allExoplanets`, and the loaders behave as above. -/
def applyOp (st : StoreState) : Op → StoreState
  | .loadPage page response => loadExoplanets st page response
  | .loadMore response => loadMoreExoplanets st response
  | .search v => { st with filteredExoplanets := searchExoplanets st.allExoplanets v }
  | .filters m h => { st with filteredExoplanets := applyFilters st.allExoplanets m h }
  | .reset => { st with filteredExoplanets := st.allExoplanets }

/-- Decoded body of the `/predict` response. -/
structure PredictionResult where
  prediction : Int
  probability : ℚ
  planet_type : Option String := none
  habitable_zone : Option String := none
  deriving DecidableEq

/-- The data content of the prediction panel rendered by
`displayPredictionResult`. -/
structure ResultView where
  hasExoplanet : Bool
  confidence : String
  planet_type : String
  habitable_zone : String
  deriving DecidableEq

/-- The number of tenths rendered by `toFixed1`: the integer nearest to
`q * 10`, ties upward, as ECMAScript `toFixed` rounds. -/
def roundedTenths (q : ℚ) : ℤ :=
  ⌊q * 10 + 1/2⌋

/-- ECMAScript `x.toFixed(1)` for the nonnegative arguments this code
produces: the number of tenths nearest to `q`, rendered with one digit
after the point. -/
def toFixed1 (q : ℚ) : String :=
  toString (roundedTenths q / 10) ++ "." ++ toString ((roundedTenths q % 10).natAbs)

/-- `displayPredictionResult` (`src/script.js:381`), restricted to the
data it renders: verdict flag, confidence string, and the two detail
fields with the `|| 'Unknown'` fallback. -/
def displayPredictionResult (result : PredictionResult) : ResultView :=
  let hasExoplanet := result.prediction == 1 || decide (result.probability > 0.5)
  let confidence := toFixed1 (result.probability * 100)
  { hasExoplanet := hasExoplanet
    confidence := confidence
    planet_type :=
      if strTruthy result.planet_type then result.planet_type.getD ""
      else "Unknown"
    habitable_zone :=
      if strTruthy result.habitable_zone then result.habitable_zone.getD ""
      else "Unknown" }

/-! ### Spec-side definitions

These definitions follow the wording of the specification and of the
claims, to be compared with the code-derived definitions above. -/

/-- Modelled from the spec: "radius < 1.25 → Earth-like; < 2.0 →
Super-Earth; < 6.0 → Neptune-like; else → Jupiter-like; radius absent →
Unknown Type.  Boundaries are half-open, lower-inclusive." -/
def claimedClassify : Option ℚ → String
  | none => "Unknown Type"
  | some radius =>
    if radius < 1.25 then "Earth-like"
    else if radius < 2.0 then "Super-Earth"
    else if radius < 6.0 then "Neptune-like"
    else "Jupiter-like"

/-- Modelled from the spec: "case-insensitive substring match against
name OR hostname; empty term matches everything".  An entity matches
when its lowercased name — or lowercased hostname, for an entity that
has one — contains the lowercased term; the empty term is contained in
every string, so it matches everything. -/
def specSearchMatch (planet : Exoplanet) (term : String) : Bool :=
  strIncludes (lowerStr planet.name) (lowerStr term) ||
    (match planet.hostname with
     | some host => strIncludes (lowerStr host) (lowerStr term)
     | none => false)

/-- The category-filter predicate exactly as claim C3 states it: the
habitability test is evaluated whenever the entity *has* `pl_rade`, and
the method test whenever the entity has `discoverymethod`. -/
def claimedFilterMatch (planet : Exoplanet)
    (methodFilter habitableFilter : String) : Bool :=
  let methodOk :=
    if methodFilter = "" then true
    else
      match planet.discoverymethod with
      | none => true
      | some d => strIncludes d methodFilter
  let habitableOk :=
    if habitableFilter = "" then true
    else
      match planet.pl_rade with
      | none => true
      | some radius =>
        if habitableFilter = "habitable" then
          decide (0.5 ≤ radius) && decide (radius ≤ 1.5)
        else if habitableFilter = "hot" then decide (radius < 0.5)
        else if habitableFilter = "cold" then decide (radius > 1.5)
        else true
  methodOk && habitableOk

/-- The category-filter predicate of claim C3 amended for the code's
truthiness tests: a filter is skipped (passes) when the entity's field
is falsy — `discoverymethod` absent or empty, `pl_rade` absent or
zero. -/
def specFilterMatch (planet : Exoplanet)
    (methodFilter habitableFilter : String) : Bool :=
  let methodOk :=
    if methodFilter = "" then true
    else if strTruthy planet.discoverymethod then
      strIncludes (planet.discoverymethod.getD "") methodFilter
    else true
  let habitableOk :=
    if habitableFilter = "" then true
    else if numTruthy planet.pl_rade then
      let radius := planet.pl_rade.getD 0
      if habitableFilter = "habitable" then
        decide (0.5 ≤ radius) && decide (radius ≤ 1.5)
      else if habitableFilter = "hot" then decide (radius < 0.5)
      else if habitableFilter = "cold" then decide (radius > 1.5)
      else true
    else true
  methodOk && habitableOk

/-! ### Concrete data used by witnesses and counterexamples -/

/-- A featureless exoplanet used to build pages of given sizes. -/
def samplePlanet : Exoplanet :=
  { name := "p" }

/-- A response page holding `n` copies of `samplePlanet`. -/
def pageOfSize (n : Nat) : Page :=
  { exoplanets := List.replicate n samplePlanet, has_more := true }

/-- The store after a successful first-page load of 12 exoplanets. -/
def storeAfterFirstPage : StoreState :=
  loadExoplanets initialState 1 (some (pageOfSize 12))

/-- An exoplanet whose `pl_rade` is present but exactly `0`. -/
def planetZeroRadius : Exoplanet :=
  { name := "zero", pl_rade := some 0 }

/-- An exoplanet with a present but empty `discoverymethod`. -/
def planetEmptyMethod : Exoplanet :=
  { name := "w", discoverymethod := some "" }

/-- An exoplanet with radius exactly `1`. -/
def planetOneRadius : Exoplanet :=
  { name := "one", pl_rade := some 1 }

/-- An exoplanet with no radius field. -/
def planetNoRadius : Exoplanet :=
  { name := "norad" }

def planetAlpha : Exoplanet := { name := "alpha" }

def planetBeta : Exoplanet := { name := "beta" }

def planetGamma : Exoplanet := { name := "gamma" }

/-- A run of the store: load `[alpha, beta]` as page 1, search for
"alpha", then load more with the single page `[gamma]`. -/
def storeAfterSearchThenLoad : StoreState :=
  applyOp
    (applyOp
      (loadExoplanets initialState 1
        (some { exoplanets := [planetAlpha, planetBeta], has_more := true }))
      (Op.search "alpha"))
    (Op.loadMore (some { exoplanets := [planetGamma], has_more := false }))

/-! ### Helper lemmas -/

theorem hasSubL_nil (l : List Char) : hasSubL l [] = true := by
  cases l <;> rfl

theorem strIncludes_nil (s : String) : strIncludes s "" = true :=
  hasSubL_nil s.data

theorem lowerStr_nil : lowerStr "" = "" := rfl

theorem strIncludes_empty_left {cand : String} (h : cand ≠ "") :
    strIncludes "" cand = false := by
  obtain ⟨l⟩ := cand
  cases l with
  | nil => exact absurd rfl h
  | cons c cs => rfl

theorem searchExoplanets_sublist (allE : List Exoplanet) (v : String) :
    List.Sublist (searchExoplanets allE v) allE := by
  by_cases h : lowerStr v = ""
  · simp only [searchExoplanets, if_pos h]
    exact List.Sublist.refl _
  · simp only [searchExoplanets, if_neg h]
    exact List.filter_sublist _

theorem loadExoplanets_sublist_preserved (st : StoreState) (page : Nat)
    (response : Option Page)
    (h : List.Sublist st.filteredExoplanets st.allExoplanets) :
    List.Sublist (loadExoplanets st page response).filteredExoplanets
      (loadExoplanets st page response).allExoplanets := by
  cases response with
  | none => exact h
  | some data =>
    by_cases hp : page = 1
    · simp [loadExoplanets, hp]
    · simp only [loadExoplanets, if_neg hp]
      exact h.append (List.Sublist.refl _)

/-! ### Claim theorems -/

/-- C6: a failed page fetch (network or decode failure, modelled as a
`none` response) leaves `allExoplanets`, `filteredExoplanets` and
`currentPage` unchanged, for every page number and every prior store
state: the error branch performs no mutation of the Dataset Store. -/
theorem failed_fetch_no_mutation (st : StoreState) (page : Nat) :
    loadExoplanets st page none = st ∧ loadMoreExoplanets st none = st :=
  ⟨rfl, rfl⟩

/-- C9: `resetFilters` clears the search text and both category filter
selections and sets `filteredExoplanets` to `allExoplanets`, leaving
`allExoplanets` and `currentPage` untouched, for every prior store and
control state. -/
theorem resetFilters_spec (st : StoreState) (c : Controls) :
    (resetFilters st c).1.filteredExoplanets = st.allExoplanets ∧
    (resetFilters st c).1.allExoplanets = st.allExoplanets ∧
    (resetFilters st c).1.currentPage = st.currentPage ∧
    (resetFilters st c).2 =
      { searchInput := "", discoveryMethodFilter := "", habitableFilter := "" } :=
  ⟨rfl, rfl, rfl, rfl⟩

/-- C5: `loadMoreExoplanets` is strictly additive — on a successful
fetch of page `currentPage + 1` it appends the returned exoplanets to
`allExoplanets` and (unfiltered) to `filteredExoplanets`, advances
`currentPage` by one, and never removes or replaces existing elements;
in particular the length of `allExoplanets` grows by the page size. -/
theorem loadMore_appends (st : StoreState) (data : Page)
    (h : 1 ≤ st.currentPage) :
    (loadMoreExoplanets st (some data)).allExoplanets
        = st.allExoplanets ++ data.exoplanets ∧
    (loadMoreExoplanets st (some data)).filteredExoplanets
        = st.filteredExoplanets ++ data.exoplanets ∧
    (loadMoreExoplanets st (some data)).currentPage = st.currentPage + 1 ∧
    (loadMoreExoplanets st (some data)).allExoplanets.length
        = st.allExoplanets.length + data.exoplanets.length := by
  have hne : st.currentPage + 1 ≠ 1 := by omega
  simp [loadMoreExoplanets, loadExoplanets, hne]

/-- Witness for C5: after a first page of 12 exoplanets and a load-more
of 5, `allExoplanets` has 17 elements and `currentPage` is 2. -/
theorem loadMore_appends_witness :
    1 ≤ storeAfterFirstPage.currentPage ∧
    (loadMoreExoplanets storeAfterFirstPage
        (some (pageOfSize 5))).allExoplanets.length = 17 ∧
    (loadMoreExoplanets storeAfterFirstPage
        (some (pageOfSize 5))).currentPage = 2 := by
  obtain ⟨-, -, h3, h4⟩ :=
    loadMore_appends storeAfterFirstPage (pageOfSize 5) (by decide)
  exact ⟨by decide, by rw [h4]; decide, by rw [h3]; decide⟩

/-- C7: a page-1 load fully replaces `allExoplanets` and
`filteredExoplanets` with the fetched page, so repeating it with the
same response is idempotent on the whole store, while a load of any
page other than 1 only appends and never replaces. -/
theorem page1_replaces (st : StoreState) (data : Page) :
    (loadExoplanets st 1 (some data)).allExoplanets = data.exoplanets ∧
    (loadExoplanets st 1 (some data)).filteredExoplanets = data.exoplanets ∧
    loadExoplanets (loadExoplanets st 1 (some data)) 1 (some data)
        = loadExoplanets st 1 (some data) ∧
    ∀ page : Nat, page ≠ 1 →
      (loadExoplanets st page (some data)).allExoplanets
          = st.allExoplanets ++ data.exoplanets ∧
      (loadExoplanets st page (some data)).filteredExoplanets
          = st.filteredExoplanets ++ data.exoplanets := by
  refine ⟨rfl, rfl, rfl, ?_⟩
  intro page hp
  simp [loadExoplanets, hp]

/-- Witness for C7: loading page 2 onto the 12-element store appends. -/
theorem page1_replaces_witness :
    (2 : Nat) ≠ 1 ∧
    (loadExoplanets storeAfterFirstPage 2 (some (pageOfSize 5))).allExoplanets
        = storeAfterFirstPage.allExoplanets ++ (pageOfSize 5).exoplanets :=
  ⟨by decide,
   ((page1_replaces storeAfterFirstPage (pageOfSize 5)).2.2.2 2 (by decide)).1⟩

/-- C1 (amended): `filteredExoplanets` is always an order-preserving
subsequence (sublist) of `allExoplanets`, and every store operation
preserves this; after a search/filter/reset it is the predicate applied
to `allExoplanets`, but `loadMoreExoplanets` appends the fetched page to
`filteredExoplanets` unfiltered, so under an active predicate the view
is a sublist of `allExoplanets` without being the predicate's image. -/
theorem filtered_sublist_preserved (st : StoreState) (op : Op)
    (h : List.Sublist st.filteredExoplanets st.allExoplanets) :
    List.Sublist (applyOp st op).filteredExoplanets
      (applyOp st op).allExoplanets := by
  cases op with
  | loadPage page response => exact loadExoplanets_sublist_preserved st page response h
  | loadMore response => exact loadExoplanets_sublist_preserved st _ response h
  | search v => exact searchExoplanets_sublist st.allExoplanets v
  | filters m hb => exact List.filter_sublist _
  | reset => exact List.Sublist.refl _

/-- Witness for C1 (amended): the invariant holds of the initial state
and is carried through a reset. -/
theorem filtered_sublist_preserved_witness :
    List.Sublist initialState.filteredExoplanets initialState.allExoplanets ∧
    List.Sublist (applyOp initialState Op.reset).filteredExoplanets
      (applyOp initialState Op.reset).allExoplanets :=
  ⟨List.nil_sublist _,
   filtered_sublist_preserved initialState Op.reset (List.nil_sublist _)⟩

/-- C1 counterexample: after loading `[alpha, beta]`, searching for
"alpha" (view `[alpha]`), and a load-more that appends `[gamma]`, the
view is `[alpha, gamma]` — not the result of the still-active search
predicate applied to `allExoplanets`, which is `[alpha]`. -/
theorem filtered_not_last_predicate_counterexample :
    storeAfterSearchThenLoad.filteredExoplanets
      ≠ searchExoplanets storeAfterSearchThenLoad.allExoplanets "alpha" := by
  decide

/-- C10: an exoplanet whose `pl_rade` is present but exactly `0` is
treated as having no radius, because `0` is falsy: `getPlanetType`
returns "Unknown Type" rather than "Earth-like", and every habitability
filter value passes it unconditionally instead of classifying it. -/
theorem zero_radius_falsy :
    getPlanetType planetZeroRadius = "Unknown Type" ∧
    getPlanetType planetZeroRadius ≠ "Earth-like" ∧
    applyFilters [planetZeroRadius] "" "habitable" = [planetZeroRadius] ∧
    applyFilters [planetZeroRadius] "" "hot" = [planetZeroRadius] ∧
    applyFilters [planetZeroRadius] "" "cold" = [planetZeroRadius] := by
  refine ⟨by decide, by decide, by decide, by decide, by decide⟩

/-- C2 counterexample: for the exoplanet whose radius is present and
exactly `0`, the claimed classification ("radius < 1.25 yields
Earth-like") disagrees with the code, which returns "Unknown Type"
because `0` is falsy. -/
theorem getPlanetType_zero_counterexample :
    getPlanetType planetZeroRadius ≠ claimedClassify planetZeroRadius.pl_rade := by
  have h2 : claimedClassify planetZeroRadius.pl_rade = "Earth-like" := by
    norm_num [claimedClassify, planetZeroRadius]
  rw [h2]
  decide

/-- C2 (amended): for a present *nonzero* radius the classification
follows the claimed half-open lower-inclusive bands, an absent or zero
radius yields "Unknown Type", and the boundary radii `1.25`, `2.0`,
`6.0` classify as "Super-Earth", "Neptune-like", "Jupiter-like". -/
theorem getPlanetType_bands :
    (∀ p : Exoplanet, p.pl_rade = none → getPlanetType p = "Unknown Type") ∧
    (∀ p : Exoplanet, p.pl_rade = some 0 → getPlanetType p = "Unknown Type") ∧
    (∀ (p : Exoplanet) (r : ℚ), p.pl_rade = some r → r ≠ 0 →
        getPlanetType p = claimedClassify (some r)) ∧
    getPlanetType { name := "b", pl_rade := some 1.25 } = "Super-Earth" ∧
    getPlanetType { name := "b", pl_rade := some 2.0 } = "Neptune-like" ∧
    getPlanetType { name := "b", pl_rade := some 6.0 } = "Jupiter-like" := by
  refine ⟨?_, ?_, ?_, ?_, ?_, ?_⟩
  · intro p hp; simp [getPlanetType, numTruthy, hp]
  · intro p hp; simp [getPlanetType, numTruthy, hp]
  · intro p r hp hr
    simp [getPlanetType, numTruthy, hp, claimedClassify, bne_iff_ne, hr]
  · norm_num [getPlanetType, numTruthy]
  · norm_num [getPlanetType, numTruthy]
  · norm_num [getPlanetType, numTruthy]

/-- Witness for C2 (amended): instantiated at an absent radius and at
radius `1`. -/
theorem getPlanetType_bands_witness :
    (planetNoRadius.pl_rade = none ∧
      getPlanetType planetNoRadius = "Unknown Type") ∧
    (planetOneRadius.pl_rade = some 1 ∧ (1 : ℚ) ≠ 0 ∧
      getPlanetType planetOneRadius = claimedClassify (some 1)) :=
  ⟨⟨rfl, getPlanetType_bands.1 planetNoRadius rfl⟩,
   ⟨rfl, by decide,
    getPlanetType_bands.2.2.1 planetOneRadius 1 rfl (by decide)⟩⟩

/-- C3 counterexample: the filter as claimed — habitability evaluated
whenever `pl_rade` is present, method check whenever `discoverymethod`
is present — disagrees with the code on an entity with `pl_rade = 0`
under "habitable" (code keeps it, claim excludes it) and on an entity
with an empty `discoverymethod` under a method filter (code keeps it,
claim excludes it). -/
theorem applyFilters_truthiness_counterexample :
    applyFilters [planetZeroRadius] "" "habitable"
        ≠ List.filter (fun p => claimedFilterMatch p "" "habitable")
            [planetZeroRadius] ∧
    applyFilters [planetEmptyMethod] "Transit" ""
        ≠ List.filter (fun p => claimedFilterMatch p "Transit" "")
            [planetEmptyMethod] := by
  constructor
  · have h1 : applyFilters [planetZeroRadius] "" "habitable"
        = [planetZeroRadius] := by decide
    have h2 : claimedFilterMatch planetZeroRadius "" "habitable" = false := by
      norm_num [claimedFilterMatch, planetZeroRadius]
      decide
    simp [h1, h2]
  · decide

/-- C3 (amended): `applyFilters` keeps exactly the exoplanets passing
the AND of the method test and the habitability test, where each test is
skipped (passes) when the filter value is empty or the entity's field is
falsy — `discoverymethod` absent or empty, `pl_rade` absent or zero —
and otherwise the method test is case-sensitive substring containment
and the habitability test selects `0.5 ≤ r ≤ 1.5` for "habitable",
`r < 0.5` for "hot", and `r > 1.5` for "cold". -/
theorem applyFilters_is_spec_filter (allE : List Exoplanet) (m h : String) :
    applyFilters allE m h = allE.filter (fun p => specFilterMatch p m h) := by
  unfold applyFilters
  apply List.filter_congr
  intro p _
  by_cases hm : m = "" <;> by_cases hd : strTruthy p.discoverymethod = true <;>
    by_cases hh : h = "" <;> by_cases hr : numTruthy p.pl_rade = true <;>
      simp [specFilterMatch, hm, hd, hh, hr, bne_iff_ne]

/-- C4: `searchExoplanets` selects from the full dataset exactly the
entities whose name or hostname contains the term case-insensitively,
preserving order (it is the `List.filter` of the spec predicate over the
dataset), and an empty term matches everything; among
`[Kepler-1b, TRAPPIST-1e]` the term "kepler" selects exactly
`[Kepler-1b]`. -/
theorem searchExoplanets_is_spec_filter :
    (∀ (allE : List Exoplanet) (term : String),
        searchExoplanets allE term
          = allE.filter (fun p => specSearchMatch p term)) ∧
    (∀ allE : List Exoplanet, searchExoplanets allE "" = allE) ∧
    searchExoplanets [{ name := "Kepler-1b" }, { name := "TRAPPIST-1e" }]
        "kepler" = [{ name := "Kepler-1b" }] := by
  refine ⟨fun allE term => ?_, fun allE => rfl, by decide⟩
  by_cases h : lowerStr term = ""
  · simp only [searchExoplanets, if_pos h]
    symm
    rw [List.filter_eq_self]
    intro p _
    simp [specSearchMatch, h, strIncludes_nil]
  · simp only [searchExoplanets, if_neg h]
    apply List.filter_congr
    intro p _
    cases hh : p.hostname with
    | none => simp [specSearchMatch, strTruthy, hh]
    | some host =>
      by_cases he : host = ""
      · subst he
        simp [specSearchMatch, strTruthy, hh, lowerStr_nil,
          strIncludes_empty_left h]
      · have ht : (host != "") = true := by simpa using he
        simp [specSearchMatch, strTruthy, hh, ht]

/-- C8: the rendered verdict satisfies
`hasExoplanet = (prediction == 1) OR (probability > 0.5)`; the displayed
confidence is `probability * 100` rounded to one decimal place (the
rendered tenths are within `1/2` of the exact value, ties upward); an
absent `planet_type`/`habitable_zone` renders as "Unknown"; and for
`{prediction := 0, probability := 0.62}` the verdict is positive with
confidence "62.0". -/
theorem displayPrediction_spec :
    (∀ result : PredictionResult,
        ((displayPredictionResult result).hasExoplanet = true ↔
          (result.prediction = 1 ∨ result.probability > 0.5)) ∧
        (displayPredictionResult result).confidence
            = toFixed1 (result.probability * 100) ∧
        (result.planet_type = none →
          (displayPredictionResult result).planet_type = "Unknown") ∧
        (result.habitable_zone = none →
          (displayPredictionResult result).habitable_zone = "Unknown")) ∧
    (∀ q : ℚ, |q * 10 - (roundedTenths q : ℚ)| ≤ 1/2) ∧
    displayPredictionResult { prediction := 0, probability := 0.62 }
        = { hasExoplanet := true, confidence := "62.0",
            planet_type := "Unknown", habitable_zone := "Unknown" } := by
  refine ⟨?_, ?_, ?_⟩
  · intro result
    refine ⟨?_, rfl, ?_, ?_⟩
    · simp [displayPredictionResult, Bool.or_eq_true, beq_iff_eq,
        decide_eq_true_eq]
    · intro hn; simp [displayPredictionResult, strTruthy, hn]
    · intro hn; simp [displayPredictionResult, strTruthy, hn]
  · intro q
    have hr : (roundedTenths q : ℚ) = (⌊q * 10 + 1/2⌋ : ℤ) := rfl
    have h1 : (⌊q * 10 + 1/2⌋ : ℚ) ≤ q * 10 + 1/2 := Int.floor_le _
    have h2 : q * 10 + 1/2 - 1 < (⌊q * 10 + 1/2⌋ : ℚ) := Int.sub_one_lt_floor _
    rw [abs_le, hr]
    constructor <;> linarith
  · have h620 : roundedTenths ((0.62 : ℚ) * 100) = 620 := by
      have hp : (0.62 : ℚ) * 100 = 62 := by norm_num
      rw [roundedTenths, hp]
      norm_num
    have hconf : toFixed1 ((0.62 : ℚ) * 100) = "62.0" := by
      rw [toFixed1, h620]
      decide
    have hflag : ((0 : Int) == 1 || decide ((0.62 : ℚ) > 0.5)) = true := by
      have hgt : (0.62 : ℚ) > 0.5 := by norm_num
      simp [hgt]
    have hbase : displayPredictionResult { prediction := 0, probability := 0.62 }
        = { hasExoplanet := (0 : Int) == 1 || decide ((0.62 : ℚ) > 0.5),
            confidence := toFixed1 ((0.62 : ℚ) * 100),
            planet_type := "Unknown", habitable_zone := "Unknown" } := rfl
    rw [hbase, hconf, hflag]

/-- Witness for C8: the default-to-"Unknown" implication instantiated at
an all-absent result. -/
theorem displayPrediction_spec_witness :
    ({ prediction := 0, probability := 0, planet_type := none,
        habitable_zone := none : PredictionResult }.planet_type = none) ∧
    (displayPredictionResult
        { prediction := 0, probability := 0 }).planet_type = "Unknown" :=
  ⟨rfl,
   (displayPrediction_spec.1 { prediction := 0, probability := 0 }).2.2.1 rfl⟩

end StellarScout
